import Mathlib

/-!
Shallow embedding of the token lifecycle engine and signing subsystem of the
digitalslips repository (backend/app/services/drid_service.py,
signature_service.py, receipt_service.py, api/v1/deposit_slips.py,
api/v1/receipts.py), together with theorems settling the specification
claims about them.

Conventions of the embedding:
- wall-clock instants (`datetime.utcnow()`) are natural numbers counting
  seconds; within one service call the clock is a single parameter `now`;
- SQLAlchemy sessions are an explicit `DB` record of rows; `db.commit()`
  on a mutated row becomes a keyed functional update of the row list;
- `Decimal` monetary values are integers (scaled minor units);
- fallible Python returns of the shape `(value, error_message)` keep that
  shape as `Option value × Option String`.
-/

namespace DSlips

/-- Status enum of a digital deposit slip (`DepositSlipStatus` in
`app.models`, values inferred from every use site in the services
and API layer). -/
inductive DepositSlipStatus
  | INITIATED
  | RETRIEVED
  | VERIFIED
  | PROCESSING
  | COMPLETED
  | EXPIRED
  | CANCELLED
  | REJECTED
deriving DecidableEq, Repr

/-- String value of a status member, as used in the f-string error
messages (`slip.status.value`). -/
def DepositSlipStatus.value : DepositSlipStatus → String
  | .INITIATED => "INITIATED"
  | .RETRIEVED => "RETRIEVED"
  | .VERIFIED => "VERIFIED"
  | .PROCESSING => "PROCESSING"
  | .COMPLETED => "COMPLETED"
  | .EXPIRED => "EXPIRED"
  | .CANCELLED => "CANCELLED"
  | .REJECTED => "REJECTED"

/-- Lower-cased status value, as produced by `slip.status.value.lower()`
in the cancelled/rejected validation message. -/
def DepositSlipStatus.valueLower : DepositSlipStatus → String
  | .INITIATED => "initiated"
  | .RETRIEVED => "retrieved"
  | .VERIFIED => "verified"
  | .PROCESSING => "processing"
  | .COMPLETED => "completed"
  | .EXPIRED => "expired"
  | .CANCELLED => "cancelled"
  | .REJECTED => "rejected"

/-- Transaction kind enum (`TransactionType` in `app/models/__init__.py`). -/
inductive TransactionType
  | CASH_DEPOSIT
  | CHEQUE_DEPOSIT
  | PAY_ORDER
  | BILL_PAYMENT
  | FUND_TRANSFER
deriving DecidableEq, Repr

/-- String value of a transaction kind. -/
def TransactionType.value : TransactionType → String
  | .CASH_DEPOSIT => "CASH_DEPOSIT"
  | .CHEQUE_DEPOSIT => "CHEQUE_DEPOSIT"
  | .PAY_ORDER => "PAY_ORDER"
  | .BILL_PAYMENT => "BILL_PAYMENT"
  | .FUND_TRANSFER => "FUND_TRANSFER"

/-- Coarse transaction category (`TransactionCategory`). -/
inductive TransactionCategory
  | DEPOSIT
  | WITHDRAWAL
  | TRANSFER
  | PAYMENT
deriving DecidableEq, Repr

/-- Transaction status enum (`TransactionStatus`). -/
inductive TransactionStatus
  | INITIATED
  | PENDING
  | PROCESSING
  | COMPLETED
  | FAILED
  | CANCELLED
  | REVERSED
deriving DecidableEq, Repr

/-- Origination channel enum (`Channel`). -/
inductive Channel
  | WHATSAPP
  | WEB
  | MOBILE
  | USSD
  | BRANCH
deriving DecidableEq, Repr

/-- Receipt type enum (`ReceiptType`). -/
inductive ReceiptType
  | DIGITAL
  | PRINTED
  | EMAIL
deriving DecidableEq, Repr

/-- A digital deposit slip row (`DigitalDepositSlip`), with the columns
read or written by `DRIDService` and the deposit-slip API endpoints. -/
structure DigitalDepositSlip where
  drid : String
  status : DepositSlipStatus
  expires_at : Nat
  validity_minutes : Nat
  transaction_type : TransactionType
  customer_cnic : String
  customer_account : String
  amount : Int
  currency : String
  narration : Option String
  depositor_name : String
  depositor_cnic : Option String
  depositor_phone : String
  depositor_relationship : Option String
  channel : Channel
  device_info : Option String
  ip_address : Option String
  customer_id : Nat
  customer_name : String
  customer_phone : String
  customer_email : Option String
  account_id : Nat
  branch_id : Nat
  qr_code_data : String
  extra_data : Option String
  validation_attempts : Nat
  last_validation_at : Option Nat
  retrieved_at : Option Nat
  retrieved_by : Option String
  verified_at : Option Nat
  verified_by : Option String
  completed_at : Option Nat
  completed_by : Option String
  cancelled_at : Option Nat
  cancelled_by : Option String
  cancellation_reason : Option String
  rejection_reason : Option String
  transaction_id : Option Nat
deriving DecidableEq, Repr

/-- A financial transaction row (`Transaction`), with the columns written
by `DRIDService.complete_deposit_slip` and read by the receipt services. -/
structure Transaction where
  id : Nat
  reference_number : String
  transaction_type : TransactionType
  transaction_category : TransactionCategory
  customer_id : Nat
  customer_cnic : String
  customer_name : String
  customer_account : String
  depositor_cnic : Option String
  depositor_name : String
  depositor_phone : String
  amount : Int
  currency : String
  exchange_rate : Int
  amount_in_base_currency : Int
  fee : Int
  tax : Int
  total_amount : Int
  status : TransactionStatus
  channel : Channel
  narration : String
  branch_id : Nat
  processed_by : String
  completed_at : Option Nat
  created_at : Nat
  extra_data : Option String
deriving DecidableEq, Repr

/-- RSA-PKCS1v15/SHA-256 signature primitive of the external
`cryptography` library. Modelled from the spec: the library itself is not
repository code, and section 4.4 characterises it as a deterministic
scheme whose verification succeeds exactly on the canonical payload bytes
that were signed, so a signature value is idealised as carrying the exact
payload it was computed over. -/
structure RSASignature where
  signedPayload : String
deriving DecidableEq, Repr

/-- Signing with the bank's private key (idealised, see `RSASignature`). -/
def rsaSign (payload : String) : RSASignature := ⟨payload⟩

/-- Verification against the bank's public key (idealised, see
`RSASignature`): succeeds exactly when the payload bytes match the
signed bytes. -/
def rsaVerify (sig : RSASignature) (payload : String) : Bool :=
  sig.signedPayload == payload

/-- SHA-256 hex digest used for the audit/display `payload_hash`.
Modelled from the spec: the hash function lives in the Python standard
library, is used only as an opaque audit fingerprint of the payload, and
is idealised as an injective encoding of its input. -/
def sha256hex (s : String) : String := "sha256:" ++ s

/-- Digital receipt row (`Receipt`), with the columns written by
`ReceiptService` including the digital-signature columns. -/
structure Receipt where
  id : Nat
  transaction_id : Nat
  receipt_number : String
  receipt_type : ReceiptType
  verification_qr_data : String
  verification_url : String
  is_verified : Bool
  verified_count : Nat
  last_verified_at : Option Nat
  created_at : Nat
  digital_signature : Option RSASignature
  signature_hash : Option String
  signature_timestamp : Option Nat
  signature_algorithm : String
  is_signature_valid : Bool
deriving DecidableEq, Repr

/-- Customer row (`Customer`), restricted to the columns read by
`DRIDService.create_deposit_slip`. -/
structure Customer where
  id : Nat
  cnic : String
  full_name : String
  phone : String
  email : Option String
deriving DecidableEq, Repr

/-- Account row (`Account`), restricted to the columns read by
`DRIDService.create_deposit_slip`. -/
structure Account where
  id : Nat
  account_number : String
  customer_id : Nat
  branch_id : Nat
deriving DecidableEq, Repr

/-- The relational store seen through a SQLAlchemy session: one list of
rows per table touched by the embedded services, plus id counters for the
rows the database assigns primary keys to. -/
structure DB where
  slips : List DigitalDepositSlip
  transactions : List Transaction
  receipts : List Receipt
  customers : List Customer
  accounts : List Account
  nextTransactionId : Nat
  nextReceiptId : Nat
deriving DecidableEq, Repr

/-- Row lookup `db.query(DigitalDepositSlip).filter(drid == ...).first()`. -/
def findSlip (db : DB) (drid : String) : Option DigitalDepositSlip :=
  db.slips.find? (fun s => s.drid == drid)

/-- Commit of a mutated slip row: every row keyed by this drid is replaced
by the new value (`drid` is a unique column). -/
def updateSlip (db : DB) (drid : String) (s' : DigitalDepositSlip) : DB :=
  { db with slips := db.slips.map (fun s => if s.drid == drid then s' else s) }

/-- Row lookup `db.query(Receipt).filter(receipt_number == ...).first()`. -/
def findReceipt (db : DB) (receipt_number : String) : Option Receipt :=
  db.receipts.find? (fun r => r.receipt_number == receipt_number)

/-- Commit of a mutated receipt row, keyed by the unique receipt number. -/
def updateReceipt (db : DB) (receipt_number : String) (r' : Receipt) : DB :=
  { db with receipts := db.receipts.map (fun r => if r.receipt_number == receipt_number then r' else r) }

/-- Row lookup `db.query(Transaction).filter(id == ...).first()`. -/
def findTransaction (db : DB) (id : Nat) : Option Transaction :=
  db.transactions.find? (fun t => t.id == id)

/-- Result schema of `DRIDService.validate_drid`
(`DRIDValidationResult` in `app/schemas/deposit_slip.py`). -/
structure DRIDValidationResult where
  is_valid : Bool
  is_expired : Bool
  is_used : Bool
  is_cancelled : Bool
  status : String
  message : String
  time_remaining_seconds : Option Nat := none
deriving DecidableEq, Repr

namespace DRIDService

/-- Embedding of `DRIDService.validate_drid`: looks the slip up, records
the validation attempt, lazily expires a stale INITIATED slip, then
classifies used/cancelled/valid, computing the remaining seconds. -/
def validate_drid (db : DB) (drid : String) (now : Nat) :
    DB × DRIDValidationResult :=
  match findSlip db drid with
  | none =>
      (db, { is_valid := false, is_expired := false, is_used := false,
             is_cancelled := false, status := "NOT_FOUND",
             message := "DRID not found" })
  | some slip0 =>
      let slip := { slip0 with
        validation_attempts := slip0.validation_attempts + 1,
        last_validation_at := some now }
      let db := updateSlip db drid slip
      let is_expired := decide (now > slip.expires_at)
      let time_remaining := if !is_expired then slip.expires_at - now else 0
      if is_expired && (slip.status == DepositSlipStatus.INITIATED) then
        let slip := { slip with status := DepositSlipStatus.EXPIRED }
        let db := updateSlip db drid slip
        (db, { is_valid := false, is_expired := true, is_used := false,
               is_cancelled := false,
               status := DepositSlipStatus.EXPIRED.value,
               message := "DRID has expired",
               time_remaining_seconds := some 0 })
      else if slip.status == DepositSlipStatus.COMPLETED
           || slip.status == DepositSlipStatus.PROCESSING then
        (db, { is_valid := false, is_expired := false, is_used := true,
               is_cancelled := false, status := slip.status.value,
               message := "DRID has already been used",
               time_remaining_seconds := some time_remaining })
      else if slip.status == DepositSlipStatus.CANCELLED
           || slip.status == DepositSlipStatus.REJECTED then
        (db, { is_valid := false, is_expired := false, is_used := false,
               is_cancelled := true, status := slip.status.value,
               message := "DRID has been " ++ slip.status.valueLower,
               time_remaining_seconds := some time_remaining })
      else
        (db, { is_valid := true, is_expired := false, is_used := false,
               is_cancelled := false, status := slip.status.value,
               message := "DRID is valid",
               time_remaining_seconds := some time_remaining })

end DRIDService

/-- ISO representation of a clock instant (`datetime.isoformat()`), an
injective rendering of the second count. -/
def isoformat (t : Nat) : String := toString t

/-- Signing timestamp string produced as `timestamp.isoformat() + "Z"`. -/
def isoZ (t : Nat) : String := toString t ++ "Z"

/-- Python `or` fallback on an optional string: `None` and the empty
string are falsy and yield the default. -/
def orStr (x : Option String) (d : String) : String :=
  match x with
  | some s => if s == "" then d else s
  | none => d

namespace QRService

/-- Default verification base URL
(`QRService.DEFAULT_VERIFICATION_URL`, with `PUBLIC_URL` unset). -/
def verification_base_url : String := "https://rcpt-demo.edimensionz.com/verify"

/-- Embedding of `QRService.generate_verification_hash`: digest of the
colon-joined receipt identity fields. -/
def generate_verification_hash (receipt_number reference_number amountStr
    customer_name dateStr : String) : String :=
  sha256hex (receipt_number ++ ":" ++ reference_number ++ ":" ++ amountStr
    ++ ":" ++ customer_name ++ ":" ++ dateStr)

/-- PNG rendering of QR data as a base64 string
(`QRService.generate_qr_code_base64`); the image encoding of the external
qrcode library is idealised as an injective tagging of its input. -/
def generate_qr_code_base64 (data : String) : String := "qrpng:" ++ data

end QRService

namespace SignatureService

/-- Receipt data dictionary handed to the signature engine: the ten keys
populated by `ReceiptService`, plus the `signing_timestamp` key that
`sign_receipt`/`verify_signature` merge in before building the payload. -/
structure ReceiptData where
  receipt_number : String
  reference_number : String
  amount : String
  currency : String
  customer_name : String
  customer_account : String
  transaction_type : String
  transaction_date : String
  branch_id : String
  processed_by : String
  signing_timestamp : Option String := none
deriving DecidableEq, Repr

/-- Embedding of `SignatureService._create_signing_payload`: the fixed
ordered field list joined with the `|` delimiter. The `signing_timestamp`
key of the dictionary is not among the parts. -/
def _create_signing_payload (r : ReceiptData) : String :=
  "receipt_number:" ++ r.receipt_number
    ++ "|transaction_reference:" ++ r.reference_number
    ++ "|amount:" ++ r.amount
    ++ "|currency:" ++ r.currency
    ++ "|customer_name:" ++ r.customer_name
    ++ "|customer_account:" ++ r.customer_account
    ++ "|transaction_type:" ++ r.transaction_type
    ++ "|transaction_date:" ++ r.transaction_date
    ++ "|branch_id:" ++ r.branch_id
    ++ "|teller_id:" ++ r.processed_by

/-- Embedding of `SignatureService.sign_receipt`. `keyAvailable` is the
outcome of the lazy key-initialisation attempt; when it fails the
function returns the unavailable triple `(None, None, None)`, embedded
as `none`. Otherwise it stamps the signing timestamp into the data,
builds the canonical payload, hashes it and signs it. -/
def sign_receipt (keyAvailable : Bool) (receipt_data : ReceiptData)
    (now : Nat) : Option (RSASignature × String × String) :=
  if !keyAvailable then none
  else
    let timestamp_iso := isoZ now
    let receipt_data_with_ts :=
      { receipt_data with signing_timestamp := some timestamp_iso }
    let payload := _create_signing_payload receipt_data_with_ts
    let payload_hash := sha256hex payload
    some (rsaSign payload, payload_hash, timestamp_iso)

/-- Embedding of `SignatureService.verify_signature`: rebuilds the
canonical payload from the supplied data and timestamp and checks the
signature against the public key, with the three caller-visible
messages of the source. -/
def verify_signature (keyAvailable : Bool) (receipt_data : ReceiptData)
    (signature : RSASignature) (signing_timestamp : String) :
    Bool × String :=
  if !keyAvailable then (false, "Signature service not available")
  else
    let receipt_data_with_ts :=
      { receipt_data with signing_timestamp := some signing_timestamp }
    let payload := _create_signing_payload receipt_data_with_ts
    if rsaVerify signature payload then
      (true, "Signature verified successfully - Receipt is authentic")
    else
      (false, "INVALID SIGNATURE - Receipt may have been tampered with")

end SignatureService

namespace ReceiptService

/-- The receipt-data dictionary built identically in
`ReceiptService.create_receipt` and
`ReceiptService.verify_receipt_signature` from a receipt number and its
transaction row. -/
def buildReceiptData (receipt_number : String) (t : Transaction) :
    SignatureService.ReceiptData :=
  { receipt_number := receipt_number
    reference_number := t.reference_number
    amount := toString t.amount
    currency := t.currency
    customer_name := t.customer_name
    customer_account := t.customer_account
    transaction_type := t.transaction_type.value
    transaction_date := isoformat t.created_at
    branch_id := toString t.branch_id
    processed_by := t.processed_by }

/-- Embedding of `ReceiptService.create_receipt`: generates QR data,
signs the receipt data (degrading to an unsigned receipt when the
signature service is unavailable), and persists the receipt row. The
uuid-based receipt number of `generate_receipt_number` is supplied by
the caller. -/
def create_receipt (db : DB) (t : Transaction) (keyAvailable : Bool)
    (receipt_type : ReceiptType) (receipt_number : String) (now : Nat) :
    DB × Receipt :=
  let qr_hash := QRService.generate_verification_hash receipt_number
    t.reference_number (toString t.amount) t.customer_name
    (isoformat t.created_at)
  let verification_url := QRService.verification_base_url ++ "/"
    ++ receipt_number ++ "?h=" ++ qr_hash
  let qr_code_base64 := QRService.generate_qr_code_base64
    (receipt_number ++ "," ++ t.reference_number ++ ","
      ++ toString t.amount ++ "," ++ t.currency ++ ","
      ++ t.customer_name ++ "," ++ verification_url ++ "," ++ qr_hash)
  let receipt_data := buildReceiptData receipt_number t
  let signResult := SignatureService.sign_receipt keyAvailable receipt_data now
  let receipt : Receipt :=
    { id := db.nextReceiptId
      transaction_id := t.id
      receipt_number := receipt_number
      receipt_type := receipt_type
      verification_qr_data := qr_code_base64
      verification_url := verification_url
      is_verified := false
      verified_count := 0
      last_verified_at := none
      created_at := now
      digital_signature := signResult.map (fun x => x.1)
      signature_hash := signResult.map (fun x => x.2.1)
      signature_timestamp := signResult.map (fun _ => now)
      signature_algorithm := "RSA-SHA256"
      is_signature_valid := signResult.isSome }
  ({ db with receipts := db.receipts ++ [receipt],
             nextReceiptId := db.nextReceiptId + 1 }, receipt)

/-- Embedding of `ReceiptService.verify_receipt`, the non-cryptographic
lookup verification: any stored receipt verifies successfully and the
call bumps its verification counters. -/
def verify_receipt (db : DB) (receipt_number : String) (now : Nat) :
    DB × Option Receipt × Bool × String :=
  match findReceipt db receipt_number with
  | none => (db, none, false, "Receipt not found")
  | some receipt =>
      let receipt' := { receipt with
        verified_count := receipt.verified_count + 1,
        last_verified_at := some now,
        is_verified := true }
      (updateReceipt db receipt_number receipt', some receipt', true,
        "Receipt verified successfully")

/-- Embedding of `ReceiptService.verify_receipt_signature`: the
cryptographic verification distinguishing a missing signature, a tamper
detection and an authentic receipt, with the cached
`is_signature_valid` update. -/
def verify_receipt_signature (db : DB) (receipt_number : String)
    (keyAvailable : Bool) : DB × Bool × String :=
  match findReceipt db receipt_number with
  | none => (db, false, "Receipt not found")
  | some receipt =>
      match receipt.digital_signature with
      | none => (db, false, "Receipt was not digitally signed")
      | some sig =>
          match findTransaction db receipt.transaction_id with
          | none => (db, false, "Transaction data not found")
          | some t =>
              let receipt_data := buildReceiptData receipt.receipt_number t
              match receipt.signature_timestamp with
              | none => (db, false, "Signature timestamp missing")
              | some ts =>
                  let res := SignatureService.verify_signature keyAvailable
                    receipt_data sig (isoZ ts)
                  let db' :=
                    if receipt.is_signature_valid != res.1 then
                      updateReceipt db receipt_number
                        { receipt with is_signature_valid := res.1 }
                    else db
                  (db', res.1, res.2)

end ReceiptService

namespace DRIDService

/-- Default validity period in minutes
(`DRIDService.DEFAULT_VALIDITY_MINUTES`). -/
def DEFAULT_VALIDITY_MINUTES : Nat := 60

/-- Predicate of the active-slip query in
`DRIDService.create_deposit_slip`: same customer and account, status
among the three in-progress states, and not yet past expiry. -/
def isActiveFor (customer_cnic customer_account : String) (now : Nat)
    (s : DigitalDepositSlip) : Bool :=
  s.customer_cnic == customer_cnic
    && s.customer_account == customer_account
    && (s.status == DepositSlipStatus.INITIATED
        || s.status == DepositSlipStatus.RETRIEVED
        || s.status == DepositSlipStatus.VERIFIED)
    && decide (s.expires_at > now)

/-- First active slip for the customer/account pair, the `.first()` of
the uniqueness query. -/
def findExisting (db : DB) (customer_cnic customer_account : String)
    (now : Nat) : Option DigitalDepositSlip :=
  db.slips.find? (isActiveFor customer_cnic customer_account now)

/-- Embedding of `DRIDService.create_deposit_slip`. The uuid-based
generate-and-retry loop for the DRID is collapsed into the caller
supplied `freshDrid`, the identifier the loop settles on. -/
def create_deposit_slip (db : DB) (transaction_type : TransactionType)
    (customer_cnic customer_account : String) (amount : Int)
    (currency : String) (narration : Option String)
    (depositor_name depositor_cnic depositor_phone
      depositor_relationship : Option String)
    (channel : Channel) (device_info ip_address : Option String)
    (validity_minutes : Option Nat) (additional_data : Option String)
    (now : Nat) (freshDrid : String) :
    DB × Option DigitalDepositSlip × Option String :=
  let validity := match validity_minutes with
    | some v => if v == 0 then DEFAULT_VALIDITY_MINUTES else v
    | none => DEFAULT_VALIDITY_MINUTES
  match db.customers.find? (fun c => c.cnic == customer_cnic) with
  | none => (db, none, some ("Customer with CNIC " ++ customer_cnic ++ " not found"))
  | some customer =>
    match db.accounts.find? (fun a => a.account_number == customer_account) with
    | none => (db, none, some ("Account " ++ customer_account ++ " not found"))
    | some account =>
      if account.customer_id != customer.id then
        (db, none, some "Account does not belong to the specified customer")
      else
        match findExisting db customer_cnic customer_account now with
        | some existing => (db, none, some ("EXISTING_SLIP:" ++ existing.drid))
        | none =>
          let expires_at := now + validity * 60
          let qr_code_data := QRService.generate_qr_code_base64
            ("DRID," ++ freshDrid ++ "," ++ toString amount ++ ","
              ++ customer.full_name ++ "," ++ isoformat now)
          let slip : DigitalDepositSlip :=
            { drid := freshDrid
              status := DepositSlipStatus.INITIATED
              expires_at := expires_at
              validity_minutes := validity
              transaction_type := transaction_type
              customer_cnic := customer_cnic
              customer_account := customer_account
              amount := amount
              currency := currency
              narration := narration
              depositor_name := orStr depositor_name customer.full_name
              depositor_cnic := depositor_cnic
              depositor_phone := orStr depositor_phone customer.phone
              depositor_relationship := depositor_relationship
              channel := channel
              device_info := device_info
              ip_address := ip_address
              customer_id := customer.id
              customer_name := customer.full_name
              customer_phone := customer.phone
              customer_email := customer.email
              account_id := account.id
              branch_id := account.branch_id
              qr_code_data := qr_code_data
              extra_data := additional_data
              validation_attempts := 0
              last_validation_at := none
              retrieved_at := none
              retrieved_by := none
              verified_at := none
              verified_by := none
              completed_at := none
              completed_by := none
              cancelled_at := none
              cancelled_by := none
              cancellation_reason := none
              rejection_reason := none
              transaction_id := none }
          ({ db with slips := db.slips ++ [slip] }, some slip, none)

/-- Embedding of `DRIDService.verify_deposit_slip`: guards the
RETRIEVED state, the expiry deadline, the amount and depositor
confirmations and, for cheque/pay-order kinds, the instrument flag,
then marks the slip VERIFIED. -/
def verify_deposit_slip (db : DB) (drid teller_id : String)
    (amount_confirmed depositor_verified : Bool)
    (instrument_verified : Option Bool) (now : Nat) :
    DB × Option DigitalDepositSlip × Option String :=
  match findSlip db drid with
  | none => (db, none, some "DRID not found")
  | some slip =>
    if slip.status != DepositSlipStatus.RETRIEVED then
      (db, none, some ("Cannot verify: current status is " ++ slip.status.value))
    else if decide (now > slip.expires_at) then
      let slip' := { slip with status := DepositSlipStatus.EXPIRED }
      (updateSlip db drid slip', none, some "DRID has expired")
    else if !amount_confirmed then
      (db, none, some "Amount must be confirmed")
    else if !depositor_verified then
      (db, none, some "Depositor identity must be verified")
    else if (slip.transaction_type == TransactionType.CHEQUE_DEPOSIT
          || slip.transaction_type == TransactionType.PAY_ORDER)
        && !(instrument_verified.getD false) then
      (db, none, some "Instrument must be verified for cheque/pay order transactions")
    else
      let slip' := { slip with
        status := DepositSlipStatus.VERIFIED,
        verified_at := some now,
        verified_by := some teller_id }
      (updateSlip db drid slip', some slip', none)

/-- Exception text of the injected receipt-persistence failure, the
`str(e)` interpolated into the completion error message. -/
def receiptFailureMsg : String := "injected receipt persistence failure"

/-- Fixed lookup table from transaction kind to coarse category
(`category_map` in `complete_deposit_slip`, whose `.get` default is
`DEPOSIT`). -/
def categoryOf : TransactionType → TransactionCategory
  | .CASH_DEPOSIT => .DEPOSIT
  | .CHEQUE_DEPOSIT => .DEPOSIT
  | .PAY_ORDER => .PAYMENT
  | .BILL_PAYMENT => .PAYMENT
  | .FUND_TRANSFER => .TRANSFER

/-- Embedding of `DRIDService.complete_deposit_slip`. The uuid-based
reference and receipt numbers are caller supplied; `keyAvailable`
parameterises the signature service; `receiptFails` injects the
exception raised by `ReceiptService.create_receipt` before it persists
the receipt row (after the transaction row was already committed).
On that exception the handler sets the slip status back to VERIFIED,
commits, and surfaces the error. -/
def complete_deposit_slip (db : DB) (drid teller_id : String)
    (authorization_captured : Bool) (keyAvailable receiptFails : Bool)
    (ref_number receipt_number : String) (now : Nat) :
    DB × Option DigitalDepositSlip × Option Transaction × Option String :=
  match findSlip db drid with
  | none => (db, none, none, some "DRID not found")
  | some slip =>
    if slip.status != DepositSlipStatus.VERIFIED then
      (db, none, none, some ("Cannot complete: current status is " ++ slip.status.value))
    else if decide (now > slip.expires_at) then
      let slip' := { slip with status := DepositSlipStatus.EXPIRED }
      (updateSlip db drid slip', none, none, some "DRID has expired")
    else if !authorization_captured then
      (db, none, none, some "Customer authorization must be captured")
    else
      let slip1 := { slip with status := DepositSlipStatus.PROCESSING }
      let db1 := updateSlip db drid slip1
      let t : Transaction :=
        { id := db1.nextTransactionId
          reference_number := ref_number
          transaction_type := slip.transaction_type
          transaction_category := categoryOf slip.transaction_type
          customer_id := slip.customer_id
          customer_cnic := slip.customer_cnic
          customer_name := slip.customer_name
          customer_account := slip.customer_account
          depositor_cnic := slip.depositor_cnic
          depositor_name := slip.depositor_name
          depositor_phone := slip.depositor_phone
          amount := slip.amount
          currency := slip.currency
          exchange_rate := 1
          amount_in_base_currency := slip.amount
          fee := 0
          tax := 0
          total_amount := slip.amount
          status := TransactionStatus.COMPLETED
          channel := slip.channel
          narration := orStr slip.narration ("Deposit via DRID: " ++ drid)
          branch_id := slip.branch_id
          processed_by := teller_id
          completed_at := some now
          created_at := now
          extra_data := slip.extra_data }
      let db2 := { db1 with
        transactions := db1.transactions ++ [t],
        nextTransactionId := db1.nextTransactionId + 1 }
      if receiptFails then
        let slipE := { slip1 with status := DepositSlipStatus.VERIFIED }
        let db3 := updateSlip db2 drid slipE
        (db3, none, none,
          some ("Error creating transaction: " ++ receiptFailureMsg))
      else
        let res := ReceiptService.create_receipt db2 t keyAvailable
          ReceiptType.DIGITAL receipt_number now
        let slip2 := { slip1 with
          status := DepositSlipStatus.COMPLETED,
          completed_at := some now,
          completed_by := some teller_id,
          transaction_id := some t.id }
        let db4 := updateSlip res.1 drid slip2
        (db4, some slip2, some t, none)

/-- Embedding of `DRIDService.cancel_deposit_slip`: refused once
COMPLETED or EXPIRED, otherwise records the CANCELLED terminal state
with the actor (customer cancellations stored as no actor) and reason. -/
def cancel_deposit_slip (db : DB) (drid : String)
    (cancelled_by : Option String) (reason : String) (now : Nat) :
    DB × Option DigitalDepositSlip × Option String :=
  match findSlip db drid with
  | none => (db, none, some "DRID not found")
  | some slip =>
    if slip.status == DepositSlipStatus.COMPLETED
        || slip.status == DepositSlipStatus.EXPIRED then
      (db, none, some ("Cannot cancel: current status is " ++ slip.status.value))
    else
      let actor := match cancelled_by with
        | some c => if c == "" || c == "CUSTOMER" then none else some c
        | none => none
      let slip' := { slip with
        status := DepositSlipStatus.CANCELLED,
        cancelled_at := some now,
        cancelled_by := actor,
        cancellation_reason := some reason }
      (updateSlip db drid slip', some slip', none)

end DRIDService

namespace DepositSlipsApi

/-- Embedding of the `teller_reject_deposit_slip` endpoint of
`app/api/v1/deposit_slips.py`: refused once COMPLETED or EXPIRED,
otherwise records the REJECTED terminal state with the reason and the
rejecting user. HTTP error responses are embedded as error strings. -/
def teller_reject_deposit_slip (db : DB) (drid reason
    current_user_id : String) (now : Nat) :
    DB × Option DigitalDepositSlip × Option String :=
  match findSlip db drid with
  | none => (db, none, some "DRID not found")
  | some slip =>
    if slip.status == DepositSlipStatus.COMPLETED
        || slip.status == DepositSlipStatus.EXPIRED then
      (db, none, some ("Cannot reject: current status is " ++ slip.status.value))
    else
      let slip' := { slip with
        status := DepositSlipStatus.REJECTED,
        rejection_reason := some reason,
        cancelled_at := some now,
        cancelled_by := some current_user_id }
      (updateSlip db drid slip', some slip', none)

end DepositSlipsApi

/-! Concrete fixtures used by the closed counterexample and witness
theorems: one customer C1 owning account A1, and a deposit slip issued
against them whose status and deadline the individual theorems vary. -/

/-- Sample deposit slip: issued for customer C1 / account A1, cash kind,
expiring at instant 50. -/
def sampleSlip : DigitalDepositSlip where
  drid := "DRID-20250101-AAAAAA"
  status := DepositSlipStatus.INITIATED
  expires_at := 50
  validity_minutes := 60
  transaction_type := TransactionType.CASH_DEPOSIT
  customer_cnic := "C1"
  customer_account := "A1"
  amount := 50000
  currency := "PKR"
  narration := none
  depositor_name := "Dana Doe"
  depositor_cnic := none
  depositor_phone := "0300"
  depositor_relationship := some "SELF"
  channel := Channel.WEB
  device_info := none
  ip_address := none
  customer_id := 1
  customer_name := "Nadia Noor"
  customer_phone := "0300"
  customer_email := none
  account_id := 1
  branch_id := 7
  qr_code_data := "qr"
  extra_data := none
  validation_attempts := 0
  last_validation_at := none
  retrieved_at := none
  retrieved_by := none
  verified_at := none
  verified_by := none
  completed_at := none
  completed_by := none
  cancelled_at := none
  cancelled_by := none
  cancellation_reason := none
  rejection_reason := none
  transaction_id := none

/-- Store holding exactly the given slips together with customer C1 and
account A1. -/
def sampleDB (slips : List DigitalDepositSlip) : DB where
  slips := slips
  transactions := []
  receipts := []
  customers := [{ id := 1, cnic := "C1", full_name := "Nadia Noor",
                  phone := "0300", email := none }]
  accounts := [{ id := 1, account_number := "A1", customer_id := 1,
                 branch_id := 7 }]
  nextTransactionId := 0
  nextReceiptId := 0

/-- Sample receipt data dictionary for the signature theorems. -/
def sampleReceiptData : SignatureService.ReceiptData where
  receipt_number := "RCP-20250101-BBBBBBBB"
  reference_number := "TXN-20250101-CCCCCCCC"
  amount := "50000"
  currency := "PKR"
  customer_name := "Nadia Noor"
  customer_account := "A1"
  transaction_type := "CASH_DEPOSIT"
  transaction_date := "100"
  branch_id := "7"
  processed_by := "teller-9"

/-- Canonical payload the sample receipt data is signed over at
instant 100. -/
def samplePayload : String :=
  SignatureService._create_signing_payload
    { sampleReceiptData with signing_timestamp := some (isoZ 100) }

/-- Signature produced for the sample receipt data at instant 100. -/
def sampleSig : RSASignature := rsaSign samplePayload

/-- DRID of the sample slip. -/
def sampleDrid : String := "DRID-20250101-AAAAAA"

/-- The sample slip in the VERIFIED state with a comfortable deadline,
ready for completion. -/
def sampleVerifiedSlip : DigitalDepositSlip :=
  { sampleSlip with status := DepositSlipStatus.VERIFIED, expires_at := 500 }

/-- Sample stored receipt carrying no digital signature. -/
def sampleReceipt : Receipt where
  id := 0
  transaction_id := 0
  receipt_number := "RCP-20250101-BBBBBBBB"
  receipt_type := ReceiptType.DIGITAL
  verification_qr_data := "qr"
  verification_url := "url"
  is_verified := false
  verified_count := 0
  last_verified_at := none
  created_at := 100
  digital_signature := none
  signature_hash := none
  signature_timestamp := none
  signature_algorithm := "RSA-SHA256"
  is_signature_valid := false

/-- Store holding only the sample receipt. -/
def sampleReceiptDB : DB :=
  { sampleDB [] with receipts := [sampleReceipt] }

/-! Helper lemmas about the keyed row updates and the canonical
payload. -/

/-- Updating the row a keyed `find?` located makes the subsequent
`find?` return the new row, provided the new row keeps the key. -/
theorem find?_map_update {α : Type} (key : α → String) (k : String)
    (x' : α) (hk : key x' = k) :
    ∀ l : List α, (l.find? (fun a => key a == k)).isSome = true →
      (l.map (fun a => if key a == k then x' else a)).find?
        (fun a => key a == k) = some x' := by
  intro l
  induction l with
  | nil => simp
  | cons a t ih =>
      intro hfound
      by_cases h : key a == k
      · simp [h, hk, List.find?]
      · simp only [List.map_cons, List.find?, h, if_neg] at hfound ⊢
        simpa [h] using ih (by simpa [h] using hfound)

/-- A committed slip update is what `findSlip` returns afterwards. -/
theorem findSlip_updateSlip (db : DB) (drid : String)
    (s s' : DigitalDepositSlip) (h : findSlip db drid = some s)
    (hk : s'.drid = drid) :
    findSlip (updateSlip db drid s') drid = some s' := by
  have hs : (db.slips.find? (fun a => a.drid == drid)).isSome = true := by
    simp only [findSlip] at h
    simp [h]
  exact find?_map_update (fun a => a.drid) drid s' hk db.slips hs

/-- A committed receipt update is what `findReceipt` returns
afterwards. -/
theorem findReceipt_updateReceipt (db : DB) (rn : String)
    (r r' : Receipt) (h : findReceipt db rn = some r)
    (hk : r'.receipt_number = rn) :
    findReceipt (updateReceipt db rn r') rn = some r' := by
  have hs : (db.receipts.find? (fun a => a.receipt_number == rn)).isSome = true := by
    simp only [findReceipt] at h
    simp [h]
  exact find?_map_update (fun a => a.receipt_number) rn r' hk db.receipts hs

/-- Cancelling an identical middle segment of a character list. -/
theorem append_middle_cancel {x y rest : List Char}
    (h : x ++ rest = y ++ rest) : x = y :=
  List.append_cancel_right h

/-- The slip a keyed lookup returns carries the looked-up key. -/
theorem findSlip_key (db : DB) (drid : String) (s : DigitalDepositSlip)
    (h : findSlip db drid = some s) : s.drid = drid := by
  simp only [findSlip] at h
  simpa using List.find?_some h

/-- The receipt a keyed lookup returns carries the looked-up key. -/
theorem findReceipt_key (db : DB) (rn : String) (r : Receipt)
    (h : findReceipt db rn = some r) : r.receipt_number = rn := by
  simp only [findReceipt] at h
  simpa using List.find?_some h

/-- The result of `validate_drid` is a function of the stored slip's
status and deadline alone: the validation-tracking columns it bumps do
not feed back into the result. -/
theorem validate_drid_result_congr (db₁ db₂ : DB) (drid : String)
    (now : Nat) (s₁ s₂ : DigitalDepositSlip)
    (h₁ : findSlip db₁ drid = some s₁) (h₂ : findSlip db₂ drid = some s₂)
    (hst : s₁.status = s₂.status) (hex : s₁.expires_at = s₂.expires_at) :
    (DRIDService.validate_drid db₁ drid now).2
      = (DRIDService.validate_drid db₂ drid now).2 := by
  simp only [DRIDService.validate_drid, h₁, h₂]
  simp only [hst, hex]
  by_cases hc1 : s₂.expires_at < now ∧ s₂.status = DepositSlipStatus.INITIATED
  · simp [hc1]
  · by_cases hc2 : s₂.status = DepositSlipStatus.COMPLETED
        ∨ s₂.status = DepositSlipStatus.PROCESSING
    · simp [hc1, hc2]
    · by_cases hc3 : s₂.status = DepositSlipStatus.CANCELLED
          ∨ s₂.status = DepositSlipStatus.REJECTED
      · simp [hc1, hc2, hc3]
      · simp [hc1, hc2, hc3]

/-- Cast identity between the truncated remaining-seconds computation of
the source and the `max`-formula of the specification. -/
theorem timeRemaining_cast (e n : Nat) :
    (((if n ≤ e then e - n else 0 : Nat)) : Int) = max 0 ((e : Int) - (n : Int)) := by
  rcases le_or_lt n e with hle | hlt
  · rw [if_pos hle, max_eq_right (by omega)]
    omega
  · rw [if_neg (by omega), max_eq_left (by omega)]
    simp

/-- C5 counterexample: a RETRIEVED slip validated one second past its
deadline (expires at 50, validated at 51) is reported valid and not
expired, with status RETRIEVED — not `is_expired=true` with status
EXPIRED as the claim states for any token. -/
theorem validate_retrieved_expired_cx :
    (DRIDService.validate_drid
        (sampleDB [{ sampleSlip with status := DepositSlipStatus.RETRIEVED }])
        sampleDrid 51).2.is_valid = true
    ∧ (DRIDService.validate_drid
        (sampleDB [{ sampleSlip with status := DepositSlipStatus.RETRIEVED }])
        sampleDrid 51).2.is_expired = false
    ∧ (DRIDService.validate_drid
        (sampleDB [{ sampleSlip with status := DepositSlipStatus.RETRIEVED }])
        sampleDrid 51).2.status = "RETRIEVED" :=
  ⟨rfl, rfl, rfl⟩

/-- C5 (amended): for every stored token, `validate_drid` reports
`time_remaining = max(0, expires_at - now)`; and a token whose status is
still INITIATED, validated after its deadline, reports
`is_expired=true` with status EXPIRED, the lazy INITIATED-to-EXPIRED
transition being committed to the store as a side effect of the read. -/
theorem drid_validate_expiry (db : DB) (drid : String) (now : Nat)
    (slip : DigitalDepositSlip) (h : findSlip db drid = some slip) :
    (∃ tr : Nat,
        (DRIDService.validate_drid db drid now).2.time_remaining_seconds = some tr
        ∧ (tr : Int) = max 0 ((slip.expires_at : Int) - (now : Int)))
    ∧ (slip.status = DepositSlipStatus.INITIATED → slip.expires_at < now →
        (DRIDService.validate_drid db drid now).2.is_expired = true
        ∧ (DRIDService.validate_drid db drid now).2.status = "EXPIRED"
        ∧ ∃ slip', findSlip (DRIDService.validate_drid db drid now).1 drid = some slip'
            ∧ slip'.status = DepositSlipStatus.EXPIRED) := by
  have hkey := findSlip_key db drid slip h
  constructor
  · simp only [DRIDService.validate_drid, h]
    by_cases hc1 : slip.expires_at < now ∧ slip.status = DepositSlipStatus.INITIATED
    · refine ⟨0, by simp [hc1], ?_⟩
      have h1 := hc1.1
      rw [max_eq_left (by omega)]
      simp
    · by_cases hc2 : slip.status = DepositSlipStatus.COMPLETED
          ∨ slip.status = DepositSlipStatus.PROCESSING
      · exact ⟨if now ≤ slip.expires_at then slip.expires_at - now else 0,
          by simp [hc1, hc2], timeRemaining_cast _ _⟩
      · by_cases hc3 : slip.status = DepositSlipStatus.CANCELLED
            ∨ slip.status = DepositSlipStatus.REJECTED
        · exact ⟨if now ≤ slip.expires_at then slip.expires_at - now else 0,
            by simp [hc1, hc2, hc3], timeRemaining_cast _ _⟩
        · exact ⟨if now ≤ slip.expires_at then slip.expires_at - now else 0,
            by simp [hc1, hc2, hc3], timeRemaining_cast _ _⟩
  · intro hst hlt
    have hc1 : slip.expires_at < now ∧ slip.status = DepositSlipStatus.INITIATED :=
      ⟨hlt, hst⟩
    simp only [DRIDService.validate_drid, h]
    refine ⟨by simp [hc1], by simp [hc1, DepositSlipStatus.value], ?_⟩
    simp only [hc1, and_self, if_true]
    refine ⟨_, findSlip_updateSlip _ _ _ _
      (findSlip_updateSlip _ _ _ _ h (by simpa using hkey)) (by simpa using hkey), rfl⟩

/-- C5 witness: on the sample INITIATED slip read one second past its
deadline, the reported remaining time is `max 0 (50 - 51) = 0`. -/
theorem drid_validate_expiry_witness :
    ∃ tr : Nat,
      (DRIDService.validate_drid (sampleDB [sampleSlip]) sampleDrid 51).2.time_remaining_seconds
          = some tr
        ∧ (tr : Int) = max 0 ((sampleSlip.expires_at : Int) - (51 : Int)) :=
  (drid_validate_expiry (sampleDB [sampleSlip]) sampleDrid 51 sampleSlip rfl).1

/-- C7 counterexample: a single `validate_drid` call writes more than
the lazy expiry transition — the stored `validation_attempts` counter of
the sample slip changes from 0 to 1 — and repeated calls on an expired
INITIATED slip do not return the same result (the first call reports the
token expired, the second reports it valid). -/
theorem validate_not_side_effect_light_cx :
    ((findSlip (DRIDService.validate_drid (sampleDB [sampleSlip]) sampleDrid 10).1
        sampleDrid).map (fun s => s.validation_attempts) = some 1)
    ∧ sampleSlip.validation_attempts = 0
    ∧ (DRIDService.validate_drid
          (DRIDService.validate_drid (sampleDB [sampleSlip]) sampleDrid 100).1
          sampleDrid 100).2
        ≠ (DRIDService.validate_drid (sampleDB [sampleSlip]) sampleDrid 100).2 :=
  ⟨rfl, rfl, by decide⟩

/-- C7 (amended): a `validate_drid` call on an existing token performs
exactly these writes: it increments `validation_attempts`, stamps
`last_validation_at`, and applies the lazy INITIATED-to-EXPIRED status
transition when the deadline has passed; every other stored field of the
token is unchanged. When the call does not perform the lazy expiry
transition, an immediately repeated call returns the same result. -/
theorem drid_validate_frame (db : DB) (drid : String) (now : Nat)
    (slip : DigitalDepositSlip) (h : findSlip db drid = some slip) :
    (∃ slip', findSlip (DRIDService.validate_drid db drid now).1 drid = some slip'
      ∧ slip' = { slip with
          validation_attempts := slip.validation_attempts + 1,
          last_validation_at := some now,
          status := if slip.expires_at < now ∧ slip.status = DepositSlipStatus.INITIATED
                    then DepositSlipStatus.EXPIRED else slip.status })
    ∧ (¬ (slip.expires_at < now ∧ slip.status = DepositSlipStatus.INITIATED) →
        (DRIDService.validate_drid (DRIDService.validate_drid db drid now).1 drid now).2
          = (DRIDService.validate_drid db drid now).2) := by
  have hkey := findSlip_key db drid slip h
  have hstore : ∃ slip',
      findSlip (DRIDService.validate_drid db drid now).1 drid = some slip'
      ∧ slip' = { slip with
          validation_attempts := slip.validation_attempts + 1,
          last_validation_at := some now,
          status := if slip.expires_at < now ∧ slip.status = DepositSlipStatus.INITIATED
                    then DepositSlipStatus.EXPIRED else slip.status } := by
    simp only [DRIDService.validate_drid, h]
    by_cases hc1 : slip.expires_at < now ∧ slip.status = DepositSlipStatus.INITIATED
    · simp only [hc1, and_self, if_true]
      refine ⟨_, findSlip_updateSlip _ _ _ _
        (findSlip_updateSlip _ _ _ _ h (by simpa using hkey)) (by simpa using hkey), ?_⟩
      simp [hc1]
    · have hs : findSlip (updateSlip db drid
          { slip with validation_attempts := slip.validation_attempts + 1,
                      last_validation_at := some now }) drid
          = some { slip with
                      validation_attempts := slip.validation_attempts + 1,
                      last_validation_at := some now } :=
        findSlip_updateSlip _ _ _ _ h (by simpa using hkey)
      refine ⟨{ slip with
          validation_attempts := slip.validation_attempts + 1,
          last_validation_at := some now }, ?_, by simp [hc1]⟩
      by_cases hc2 : slip.status = DepositSlipStatus.COMPLETED
          ∨ slip.status = DepositSlipStatus.PROCESSING
      · simpa [hc1, hc2] using hs
      · by_cases hc3 : slip.status = DepositSlipStatus.CANCELLED
            ∨ slip.status = DepositSlipStatus.REJECTED
        · simpa [hc1, hc2, hc3] using hs
        · simpa [hc1, hc2, hc3] using hs
  refine ⟨hstore, ?_⟩
  intro hnc
  obtain ⟨slip', hfind', heq'⟩ := hstore
  refine validate_drid_result_congr _ _ _ _ _ _ hfind' h ?_ ?_
  · rw [heq']
    simp [hnc]
  · rw [heq']

/-- C7 witness: on the sample slip (not yet expired at instant 10) the
repeated call returns the same result as the first. -/
theorem drid_validate_frame_witness :
    (DRIDService.validate_drid
        (DRIDService.validate_drid (sampleDB [sampleSlip]) sampleDrid 10).1
        sampleDrid 10).2
      = (DRIDService.validate_drid (sampleDB [sampleSlip]) sampleDrid 10).2 :=
  (drid_validate_frame (sampleDB [sampleSlip]) sampleDrid 10 sampleSlip rfl).2
    (by decide)

/-- Unfolding of the `or`-with-default read of the instrument flag. -/
theorem getD_false_eq_true_iff (iv : Option Bool) :
    iv.getD false = true ↔ iv = some true := by
  cases iv <;> simp

/-- C4: `verify_deposit_slip` succeeds exactly when the token is
RETRIEVED, not past its deadline, the amount and depositor identity are
confirmed, and the instrument is verified whenever the kind is cheque or
pay-order (cash deposits need no instrument flag); verifying an
INITIATED token fails with the guard error naming the actual state; and
`complete_deposit_slip` fails, without returning a record, on any
status other than VERIFIED. -/
theorem drid_verify_complete_guards (db : DB) (drid teller_id : String)
    (ac dv : Bool) (iv : Option Bool) (now : Nat)
    (slip : DigitalDepositSlip) (h : findSlip db drid = some slip)
    (auth ka rf : Bool) (rn rcn : String) :
    ((DRIDService.verify_deposit_slip db drid teller_id ac dv iv now).2.2 = none ↔
      (slip.status = DepositSlipStatus.RETRIEVED
        ∧ ¬ (slip.expires_at < now)
        ∧ ac = true ∧ dv = true
        ∧ ((slip.transaction_type = TransactionType.CHEQUE_DEPOSIT
            ∨ slip.transaction_type = TransactionType.PAY_ORDER) → iv = some true)))
    ∧ (slip.status = DepositSlipStatus.INITIATED →
        (DRIDService.verify_deposit_slip db drid teller_id ac dv iv now).2.2
          = some "Cannot verify: current status is INITIATED")
    ∧ (slip.status ≠ DepositSlipStatus.VERIFIED →
        (DRIDService.complete_deposit_slip db drid teller_id auth ka rf rn rcn now).2.2.2
          = some ("Cannot complete: current status is " ++ slip.status.value)
        ∧ (DRIDService.complete_deposit_slip db drid teller_id auth ka rf rn rcn now).2.1 = none
        ∧ (DRIDService.complete_deposit_slip db drid teller_id auth ka rf rn rcn now).2.2.1 = none) := by
  refine ⟨?_, ?_, ?_⟩
  · simp only [DRIDService.verify_deposit_slip, h]
    by_cases h1 : slip.status = DepositSlipStatus.RETRIEVED
    · by_cases h2 : slip.expires_at < now
      · simp [h1, h2]
      · by_cases h3 : ac = true
        · by_cases h4 : dv = true
          · by_cases h5 : slip.transaction_type = TransactionType.CHEQUE_DEPOSIT
                ∨ slip.transaction_type = TransactionType.PAY_ORDER
            · rcases iv with _ | b
              · simp [h1, h2, h3, h4, h5]
              · cases b <;> simp [h1, h2, h3, h4, h5]
            · simp [h1, h2, h3, h4, h5]
          · simp [h1, h2, h3, h4]
        · simp [h1, h2, h3]
    · simp [h1]
  · intro hst
    simp [DRIDService.verify_deposit_slip, h, hst, DepositSlipStatus.value]
  · intro hst
    refine ⟨?_, ?_, ?_⟩ <;>
      simp [DRIDService.complete_deposit_slip, h, hst]

/-- C4 witness: verifying the sample INITIATED slip fails with the
guard error naming INITIATED. -/
theorem drid_verify_complete_guards_witness :
    (DRIDService.verify_deposit_slip (sampleDB [sampleSlip]) sampleDrid "teller-9"
        true true none 10).2.2
      = some "Cannot verify: current status is INITIATED" :=
  (drid_verify_complete_guards (sampleDB [sampleSlip]) sampleDrid "teller-9"
    true true none 10 sampleSlip rfl true true false "TXN-1" "RCP-1").2.1 rfl

/-- C6 counterexample: cancelling a PROCESSING slip succeeds (the code
blocks cancellation only for COMPLETED and EXPIRED), whereas the claim
says cancel fails on PROCESSING, CANCELLED and REJECTED as well. -/
theorem cancel_processing_succeeds_cx :
    (DRIDService.cancel_deposit_slip
        (sampleDB [{ sampleSlip with status := DepositSlipStatus.PROCESSING }])
        sampleDrid (some "user-1") "changed mind" 10).2.2 = none
    ∧ ((findSlip (DRIDService.cancel_deposit_slip
          (sampleDB [{ sampleSlip with status := DepositSlipStatus.PROCESSING }])
          sampleDrid (some "user-1") "changed mind" 10).1 sampleDrid).map
        (fun s => s.status) = some DepositSlipStatus.CANCELLED) :=
  ⟨rfl, rfl⟩

/-- C6 (amended): cancellation and rejection are refused exactly on the
two statuses COMPLETED and EXPIRED; from every other status (INITIATED,
RETRIEVED, VERIFIED, and also PROCESSING, CANCELLED, REJECTED) they
succeed and record the respective distinct terminal state with the
supplied reason. -/
theorem drid_cancel_reject_guards (db : DB) (drid : String)
    (cancelled_by : Option String) (reason uid : String) (now : Nat)
    (slip : DigitalDepositSlip) (h : findSlip db drid = some slip) :
    ((DRIDService.cancel_deposit_slip db drid cancelled_by reason now).2.2 = none ↔
      (slip.status ≠ DepositSlipStatus.COMPLETED
        ∧ slip.status ≠ DepositSlipStatus.EXPIRED))
    ∧ ((DRIDService.cancel_deposit_slip db drid cancelled_by reason now).2.2 = none →
        ∃ slip', findSlip (DRIDService.cancel_deposit_slip db drid cancelled_by reason now).1 drid
            = some slip'
          ∧ slip'.status = DepositSlipStatus.CANCELLED
          ∧ slip'.cancellation_reason = some reason)
    ∧ ((DepositSlipsApi.teller_reject_deposit_slip db drid reason uid now).2.2 = none ↔
      (slip.status ≠ DepositSlipStatus.COMPLETED
        ∧ slip.status ≠ DepositSlipStatus.EXPIRED))
    ∧ ((DepositSlipsApi.teller_reject_deposit_slip db drid reason uid now).2.2 = none →
        ∃ slip', findSlip (DepositSlipsApi.teller_reject_deposit_slip db drid reason uid now).1 drid
            = some slip'
          ∧ slip'.status = DepositSlipStatus.REJECTED
          ∧ slip'.rejection_reason = some reason) := by
  have hkey := findSlip_key db drid slip h
  by_cases hc : slip.status = DepositSlipStatus.COMPLETED
      ∨ slip.status = DepositSlipStatus.EXPIRED
  · refine ⟨?_, ?_, ?_, ?_⟩ <;>
      simp [DRIDService.cancel_deposit_slip,
        DepositSlipsApi.teller_reject_deposit_slip, h, hc]
    · tauto
    · tauto
  · refine ⟨?_, ?_, ?_, ?_⟩
    · simp only [DRIDService.cancel_deposit_slip, h]
      simp [hc]
      tauto
    · intro _
      obtain ⟨h1, h2⟩ := not_or.mp hc
      simp only [DRIDService.cancel_deposit_slip, h]
      rw [if_neg (by simp [h1, h2])]
      exact ⟨_, findSlip_updateSlip _ _ _ _ h (by simpa using hkey), rfl, rfl⟩
    · simp only [DepositSlipsApi.teller_reject_deposit_slip, h]
      simp [hc]
      tauto
    · intro _
      obtain ⟨h1, h2⟩ := not_or.mp hc
      simp only [DepositSlipsApi.teller_reject_deposit_slip, h]
      rw [if_neg (by simp [h1, h2])]
      exact ⟨_, findSlip_updateSlip _ _ _ _ h (by simpa using hkey), rfl, rfl⟩

/-- C6 witness: cancelling the sample INITIATED slip records CANCELLED
with the supplied reason. -/
theorem drid_cancel_reject_guards_witness :
    ∃ slip', findSlip (DRIDService.cancel_deposit_slip (sampleDB [sampleSlip])
        sampleDrid (some "user-1") "changed mind" 10).1 sampleDrid = some slip'
      ∧ slip'.status = DepositSlipStatus.CANCELLED
      ∧ slip'.cancellation_reason = some "changed mind" :=
  (drid_cancel_reject_guards (sampleDB [sampleSlip]) sampleDrid (some "user-1")
    "changed mind" "user-1" 10 sampleSlip rfl).2.1 rfl

/-- C3 counterexample: with the sample slip still INITIATED (a
non-terminal status) but past its deadline (expires at 50, issuance at
100), a second issuance for the same account succeeds instead of
returning the EXISTING_SLIP outcome — the uniqueness query also
requires `expires_at > now`. -/
theorem create_second_while_initiated_cx :
    sampleSlip.status = DepositSlipStatus.INITIATED
    ∧ (DRIDService.create_deposit_slip (sampleDB [sampleSlip])
        TransactionType.CASH_DEPOSIT "C1" "A1" 7 "PKR" none none none none none
        Channel.WEB none none none none 100 "DRID-20250101-FFFFFF").2.2 = none
    ∧ (DRIDService.create_deposit_slip (sampleDB [sampleSlip])
        TransactionType.CASH_DEPOSIT "C1" "A1" 7 "PKR" none none none none none
        Channel.WEB none none none none 100 "DRID-20250101-FFFFFF").2.1.isSome = true :=
  ⟨rfl, rfl, rfl⟩

/-- C3 (amended): when the customer and account checks pass, a second
issuance against the same account returns the distinguishable
EXISTING_SLIP outcome referencing the existing token's identifier
exactly when a token for that customer/account is in a non-terminal
status (INITIATED, RETRIEVED or VERIFIED) and not yet past its
`expires_at`; when no such token remains (in particular once the first
reaches a terminal state), issuance succeeds with a fresh INITIATED
token. -/
theorem drid_create_already_active (db : DB) (tt : TransactionType)
    (cnic acct : String) (amount : Int) (currency : String)
    (narr dn dc dp dr : Option String) (ch : Channel)
    (di ip : Option String) (vm : Option Nat) (ad : Option String)
    (now : Nat) (freshDrid : String) (customer : Customer)
    (hc : db.customers.find? (fun c => c.cnic == cnic) = some customer)
    (account : Account)
    (ha : db.accounts.find? (fun a => a.account_number == acct) = some account)
    (hown : account.customer_id = customer.id) :
    (∀ ex, DRIDService.findExisting db cnic acct now = some ex →
        DRIDService.create_deposit_slip db tt cnic acct amount currency narr
            dn dc dp dr ch di ip vm ad now freshDrid
          = (db, none, some ("EXISTING_SLIP:" ++ ex.drid)))
    ∧ (DRIDService.findExisting db cnic acct now = none →
        (DRIDService.create_deposit_slip db tt cnic acct amount currency narr
            dn dc dp dr ch di ip vm ad now freshDrid).2.2 = none
        ∧ ∃ slip, (DRIDService.create_deposit_slip db tt cnic acct amount currency narr
              dn dc dp dr ch di ip vm ad now freshDrid).2.1 = some slip
            ∧ slip.status = DepositSlipStatus.INITIATED
            ∧ slip.drid = freshDrid) := by
  constructor
  · intro ex hex
    simp [DRIDService.create_deposit_slip, hc, ha, hown, hex]
  · intro hnone
    simp only [DRIDService.create_deposit_slip, hc, ha, hnone]
    rw [if_neg (by simp [hown])]
    exact ⟨rfl, _, rfl, rfl, rfl⟩

/-- C3 witness: with the sample slip active (INITIATED, issuance at
instant 10 before the deadline 50), a second issuance for account A1
returns the EXISTING_SLIP outcome naming the sample DRID. -/
theorem drid_create_already_active_witness :
    DRIDService.create_deposit_slip (sampleDB [sampleSlip])
        TransactionType.CASH_DEPOSIT "C1" "A1" 7 "PKR" none none none none none
        Channel.WEB none none none none 10 "DRID-20250101-FFFFFF"
      = (sampleDB [sampleSlip], none, some ("EXISTING_SLIP:" ++ sampleSlip.drid)) :=
  (drid_create_already_active (sampleDB [sampleSlip]) TransactionType.CASH_DEPOSIT
    "C1" "A1" 7 "PKR" none none none none none Channel.WEB none none none none
    10 "DRID-20250101-FFFFFF"
    { id := 1, cnic := "C1", full_name := "Nadia Noor", phone := "0300", email := none }
    rfl
    { id := 1, account_number := "A1", customer_id := 1, branch_id := 7 }
    rfl rfl).1 sampleSlip rfl

/-- C2 counterexample: completing the sample VERIFIED slip with the
receipt-persistence failure injected surfaces an error and rolls the
token back to VERIFIED, but the already-committed transaction row
remains visible to subsequent readers — the claim's requirement that no
FinancialRecord remain visible fails. -/
theorem complete_rollback_leaves_transaction_cx :
    (DRIDService.complete_deposit_slip (sampleDB [sampleVerifiedSlip]) sampleDrid
        "teller-9" true true true "TXN-1" "RCP-1" 100).2.2.2.isSome = true
    ∧ (DRIDService.complete_deposit_slip (sampleDB [sampleVerifiedSlip]) sampleDrid
        "teller-9" true true true "TXN-1" "RCP-1" 100).1.transactions.length = 1
    ∧ ((findSlip (DRIDService.complete_deposit_slip (sampleDB [sampleVerifiedSlip])
          sampleDrid "teller-9" true true true "TXN-1" "RCP-1" 100).1 sampleDrid).map
        (fun s => s.status) = some DepositSlipStatus.VERIFIED) :=
  ⟨rfl, rfl, rfl⟩

/-- C2 (amended): when receipt persistence fails after the transaction
row was written, completion surfaces the error and rolls the token
status back to VERIFIED (not INITIATED), and no receipt row is added;
but the transaction row already committed before the failure remains
visible to subsequent readers. -/
theorem drid_complete_rollback (db : DB) (drid teller_id : String)
    (ka : Bool) (rn rcn : String) (now : Nat) (slip : DigitalDepositSlip)
    (h : findSlip db drid = some slip)
    (hst : slip.status = DepositSlipStatus.VERIFIED)
    (hexp : ¬ (slip.expires_at < now)) :
    (DRIDService.complete_deposit_slip db drid teller_id true ka true rn rcn now).2.2.2.isSome
        = true
    ∧ (∃ slip', findSlip (DRIDService.complete_deposit_slip db drid teller_id true ka true
          rn rcn now).1 drid = some slip'
        ∧ slip'.status = DepositSlipStatus.VERIFIED)
    ∧ (DRIDService.complete_deposit_slip db drid teller_id true ka true rn rcn now).1.receipts
        = db.receipts
    ∧ ∃ t, (DRIDService.complete_deposit_slip db drid teller_id true ka true rn rcn now).1.transactions
        = db.transactions ++ [t] := by
  have hkey := findSlip_key db drid slip h
  simp only [DRIDService.complete_deposit_slip, h, hst]
  rw [if_neg (by simp)]
  rw [if_neg (by simpa using hexp)]
  rw [if_neg (by simp)]
  rw [if_pos trivial]
  exact ⟨rfl,
    ⟨_, findSlip_updateSlip _ _ _ _
      (findSlip_updateSlip _ _ _ _ h (by simpa using hkey)) (by simpa using hkey), rfl⟩,
    rfl, ⟨_, rfl⟩⟩

/-- C2 witness: on the sample VERIFIED slip with the injected failure,
the stored token ends the call back in VERIFIED. -/
theorem drid_complete_rollback_witness :
    ∃ slip', findSlip (DRIDService.complete_deposit_slip (sampleDB [sampleVerifiedSlip])
        sampleDrid "teller-9" true true true "TXN-1" "RCP-1" 100).1 sampleDrid = some slip'
      ∧ slip'.status = DepositSlipStatus.VERIFIED :=
  (drid_complete_rollback (sampleDB [sampleVerifiedSlip]) sampleDrid "teller-9"
    true "TXN-1" "RCP-1" 100 sampleVerifiedSlip rfl rfl (by decide)).2.1

/-- C9: when the signing key material is unavailable, `sign_receipt`
returns the unavailable triple instead of raising; `create_receipt`
still persists the receipt, flagged unsigned (no signature,
`is_signature_valid = false`); and completion of a VERIFIED token still
succeeds end to end, the stored receipt being the unsigned one. -/
theorem unsigned_completion_graceful (db : DB) (drid teller_id : String)
    (rn rcn : String) (now : Nat) (slip : DigitalDepositSlip)
    (h : findSlip db drid = some slip)
    (hst : slip.status = DepositSlipStatus.VERIFIED)
    (hexp : ¬ (slip.expires_at < now)) :
    (∀ rd n, SignatureService.sign_receipt false rd n = none)
    ∧ (∀ (db₀ : DB) (t : Transaction) (rt : ReceiptType) (rn₀ : String) (n₀ : Nat),
        (ReceiptService.create_receipt db₀ t false rt rn₀ n₀).2.digital_signature = none
        ∧ (ReceiptService.create_receipt db₀ t false rt rn₀ n₀).2.is_signature_valid = false
        ∧ (ReceiptService.create_receipt db₀ t false rt rn₀ n₀).1.receipts
            = db₀.receipts ++ [(ReceiptService.create_receipt db₀ t false rt rn₀ n₀).2])
    ∧ ((DRIDService.complete_deposit_slip db drid teller_id true false false rn rcn now).2.2.2
          = none
        ∧ (∃ slip', (DRIDService.complete_deposit_slip db drid teller_id true false false
              rn rcn now).2.1 = some slip'
            ∧ slip'.status = DepositSlipStatus.COMPLETED)
        ∧ ∃ rec, (DRIDService.complete_deposit_slip db drid teller_id true false false
              rn rcn now).1.receipts = db.receipts ++ [rec]
            ∧ rec.digital_signature = none
            ∧ rec.is_signature_valid = false) := by
  refine ⟨fun rd n => rfl, fun db₀ t rt rn₀ n₀ => ⟨rfl, rfl, rfl⟩, ?_⟩
  simp only [DRIDService.complete_deposit_slip, h, hst]
  rw [if_neg (by simp)]
  rw [if_neg (by simpa using hexp)]
  rw [if_neg (by simp)]
  rw [if_neg (by simp)]
  exact ⟨rfl, ⟨_, rfl, rfl⟩, ⟨_, rfl, rfl, rfl⟩⟩

/-- C9 witness: completing the sample VERIFIED slip with the key
material unavailable stores exactly one new receipt, unsigned and
flagged invalid. -/
theorem unsigned_completion_graceful_witness :
    ∃ rec, (DRIDService.complete_deposit_slip (sampleDB [sampleVerifiedSlip])
          sampleDrid "teller-9" true false false "TXN-1" "RCP-1" 100).1.receipts
        = (sampleDB [sampleVerifiedSlip]).receipts ++ [rec]
      ∧ rec.digital_signature = none
      ∧ rec.is_signature_valid = false :=
  (unsigned_completion_graceful (sampleDB [sampleVerifiedSlip]) sampleDrid "teller-9"
    "TXN-1" "RCP-1" 100 sampleVerifiedSlip rfl rfl (by decide)).2.2.2.2

/-- C10: the non-cryptographic receipt verification (`verify_receipt`,
serving the public verify-by-number endpoint) reports invalid with
"Receipt not found" exactly when no receipt with the number exists; for
every stored receipt — with no condition on its signature fields — it
reports valid with the success message and, as a side effect, bumps the
receipt's `verified_count` and sets `is_verified`. -/
theorem receipt_lookup_verification (db : DB) (rn : String) (now : Nat) :
    (findReceipt db rn = none →
      ReceiptService.verify_receipt db rn now = (db, none, false, "Receipt not found"))
    ∧ (∀ rec, findReceipt db rn = some rec →
        (ReceiptService.verify_receipt db rn now).2.2.1 = true
        ∧ (ReceiptService.verify_receipt db rn now).2.2.2 = "Receipt verified successfully"
        ∧ (ReceiptService.verify_receipt db rn now).2.1
            = some { rec with verified_count := rec.verified_count + 1,
                              last_verified_at := some now, is_verified := true }
        ∧ findReceipt (ReceiptService.verify_receipt db rn now).1 rn
            = some { rec with verified_count := rec.verified_count + 1,
                              last_verified_at := some now, is_verified := true }) := by
  constructor
  · intro h0
    simp [ReceiptService.verify_receipt, h0]
  · intro rec h0
    have hkey := findReceipt_key db rn rec h0
    simp only [ReceiptService.verify_receipt, h0]
    refine ⟨?_, ?_, ?_, findReceipt_updateReceipt _ _ _ _ h0 (by simpa using hkey)⟩
      <;> trivial

/-- C10 witness: verifying the stored unsigned sample receipt reports
valid with the success message. -/
theorem receipt_lookup_verification_witness :
    (ReceiptService.verify_receipt sampleReceiptDB "RCP-20250101-BBBBBBBB" 200).2.2.1 = true
    ∧ (ReceiptService.verify_receipt sampleReceiptDB "RCP-20250101-BBBBBBBB" 200).2.2.2
        = "Receipt verified successfully" :=
  ⟨((receipt_lookup_verification sampleReceiptDB "RCP-20250101-BBBBBBBB" 200).2
      sampleReceipt rfl).1,
   ((receipt_lookup_verification sampleReceiptDB "RCP-20250101-BBBBBBBB" 200).2
      sampleReceipt rfl).2.1⟩

/-- C8: signature round-trip. Verifying a signed receipt against its
unmodified field set reports authentic (for any supplied timestamp
string, since the canonical payload does not read it); changing any
single one of the ten canonical fields between signing and verification
makes verification report the tamper-detected outcome; the tamper
message is distinguishable from both the not-signed and the authentic
messages, and `verify_receipt_signature` reports the not-signed outcome
for a stored receipt without a signature. -/
theorem signature_roundtrip_tamper (r : SignatureService.ReceiptData)
    (now : Nat) (ts : String) (sig : RSASignature) (ph tsi : String)
    (hsign : SignatureService.sign_receipt true r now = some (sig, ph, tsi)) :
    SignatureService.verify_signature true r sig ts
        = (true, "Signature verified successfully - Receipt is authentic")
    ∧ (∀ x, x ≠ r.receipt_number →
        SignatureService.verify_signature true { r with receipt_number := x } sig ts
          = (false, "INVALID SIGNATURE - Receipt may have been tampered with"))
    ∧ (∀ x, x ≠ r.reference_number →
        SignatureService.verify_signature true { r with reference_number := x } sig ts
          = (false, "INVALID SIGNATURE - Receipt may have been tampered with"))
    ∧ (∀ x, x ≠ r.amount →
        SignatureService.verify_signature true { r with amount := x } sig ts
          = (false, "INVALID SIGNATURE - Receipt may have been tampered with"))
    ∧ (∀ x, x ≠ r.currency →
        SignatureService.verify_signature true { r with currency := x } sig ts
          = (false, "INVALID SIGNATURE - Receipt may have been tampered with"))
    ∧ (∀ x, x ≠ r.customer_name →
        SignatureService.verify_signature true { r with customer_name := x } sig ts
          = (false, "INVALID SIGNATURE - Receipt may have been tampered with"))
    ∧ (∀ x, x ≠ r.customer_account →
        SignatureService.verify_signature true { r with customer_account := x } sig ts
          = (false, "INVALID SIGNATURE - Receipt may have been tampered with"))
    ∧ (∀ x, x ≠ r.transaction_type →
        SignatureService.verify_signature true { r with transaction_type := x } sig ts
          = (false, "INVALID SIGNATURE - Receipt may have been tampered with"))
    ∧ (∀ x, x ≠ r.transaction_date →
        SignatureService.verify_signature true { r with transaction_date := x } sig ts
          = (false, "INVALID SIGNATURE - Receipt may have been tampered with"))
    ∧ (∀ x, x ≠ r.branch_id →
        SignatureService.verify_signature true { r with branch_id := x } sig ts
          = (false, "INVALID SIGNATURE - Receipt may have been tampered with"))
    ∧ (∀ x, x ≠ r.processed_by →
        SignatureService.verify_signature true { r with processed_by := x } sig ts
          = (false, "INVALID SIGNATURE - Receipt may have been tampered with"))
    ∧ ("INVALID SIGNATURE - Receipt may have been tampered with"
          ≠ "Receipt was not digitally signed"
        ∧ "INVALID SIGNATURE - Receipt may have been tampered with"
          ≠ "Signature verified successfully - Receipt is authentic")
    ∧ (∀ (db : DB) (rn : String) (rec : Receipt), findReceipt db rn = some rec →
        rec.digital_signature = none →
        ReceiptService.verify_receipt_signature db rn true
          = (db, false, "Receipt was not digitally signed")) := by
  have hsig : sig = rsaSign (SignatureService._create_signing_payload
      { r with signing_timestamp := some (isoZ now) }) := by
    simp [SignatureService.sign_receipt] at hsign
    exact hsign.1.symm
  subst hsig
  refine ⟨?_, ?_, ?_, ?_, ?_, ?_, ?_, ?_, ?_, ?_, ?_, ⟨by decide, by decide⟩, ?_⟩
  · simp [SignatureService.verify_signature, rsaVerify, rsaSign,
      SignatureService._create_signing_payload]
  · intro x hx
    simp only [SignatureService.verify_signature, rsaVerify, rsaSign, Bool.not_true,
      Bool.false_eq_true, if_false]
    split
    next hcond =>
      exfalso
      apply hx
      rw [beq_iff_eq] at hcond
      have hd := congrArg String.data hcond
      simp only [SignatureService._create_signing_payload, String.data_append,
        List.append_assoc] at hd
      repeat replace hd := List.append_cancel_left hd
      first
      | exact String.ext (List.append_cancel_right hd).symm
      | exact String.ext hd.symm
    next => rfl
  · intro x hx
    simp only [SignatureService.verify_signature, rsaVerify, rsaSign, Bool.not_true,
      Bool.false_eq_true, if_false]
    split
    next hcond =>
      exfalso
      apply hx
      rw [beq_iff_eq] at hcond
      have hd := congrArg String.data hcond
      simp only [SignatureService._create_signing_payload, String.data_append,
        List.append_assoc] at hd
      repeat replace hd := List.append_cancel_left hd
      first
      | exact String.ext (List.append_cancel_right hd).symm
      | exact String.ext hd.symm
    next => rfl
  · intro x hx
    simp only [SignatureService.verify_signature, rsaVerify, rsaSign, Bool.not_true,
      Bool.false_eq_true, if_false]
    split
    next hcond =>
      exfalso
      apply hx
      rw [beq_iff_eq] at hcond
      have hd := congrArg String.data hcond
      simp only [SignatureService._create_signing_payload, String.data_append,
        List.append_assoc] at hd
      repeat replace hd := List.append_cancel_left hd
      first
      | exact String.ext (List.append_cancel_right hd).symm
      | exact String.ext hd.symm
    next => rfl
  · intro x hx
    simp only [SignatureService.verify_signature, rsaVerify, rsaSign, Bool.not_true,
      Bool.false_eq_true, if_false]
    split
    next hcond =>
      exfalso
      apply hx
      rw [beq_iff_eq] at hcond
      have hd := congrArg String.data hcond
      simp only [SignatureService._create_signing_payload, String.data_append,
        List.append_assoc] at hd
      repeat replace hd := List.append_cancel_left hd
      first
      | exact String.ext (List.append_cancel_right hd).symm
      | exact String.ext hd.symm
    next => rfl
  · intro x hx
    simp only [SignatureService.verify_signature, rsaVerify, rsaSign, Bool.not_true,
      Bool.false_eq_true, if_false]
    split
    next hcond =>
      exfalso
      apply hx
      rw [beq_iff_eq] at hcond
      have hd := congrArg String.data hcond
      simp only [SignatureService._create_signing_payload, String.data_append,
        List.append_assoc] at hd
      repeat replace hd := List.append_cancel_left hd
      first
      | exact String.ext (List.append_cancel_right hd).symm
      | exact String.ext hd.symm
    next => rfl
  · intro x hx
    simp only [SignatureService.verify_signature, rsaVerify, rsaSign, Bool.not_true,
      Bool.false_eq_true, if_false]
    split
    next hcond =>
      exfalso
      apply hx
      rw [beq_iff_eq] at hcond
      have hd := congrArg String.data hcond
      simp only [SignatureService._create_signing_payload, String.data_append,
        List.append_assoc] at hd
      repeat replace hd := List.append_cancel_left hd
      first
      | exact String.ext (List.append_cancel_right hd).symm
      | exact String.ext hd.symm
    next => rfl
  · intro x hx
    simp only [SignatureService.verify_signature, rsaVerify, rsaSign, Bool.not_true,
      Bool.false_eq_true, if_false]
    split
    next hcond =>
      exfalso
      apply hx
      rw [beq_iff_eq] at hcond
      have hd := congrArg String.data hcond
      simp only [SignatureService._create_signing_payload, String.data_append,
        List.append_assoc] at hd
      repeat replace hd := List.append_cancel_left hd
      first
      | exact String.ext (List.append_cancel_right hd).symm
      | exact String.ext hd.symm
    next => rfl
  · intro x hx
    simp only [SignatureService.verify_signature, rsaVerify, rsaSign, Bool.not_true,
      Bool.false_eq_true, if_false]
    split
    next hcond =>
      exfalso
      apply hx
      rw [beq_iff_eq] at hcond
      have hd := congrArg String.data hcond
      simp only [SignatureService._create_signing_payload, String.data_append,
        List.append_assoc] at hd
      repeat replace hd := List.append_cancel_left hd
      first
      | exact String.ext (List.append_cancel_right hd).symm
      | exact String.ext hd.symm
    next => rfl
  · intro x hx
    simp only [SignatureService.verify_signature, rsaVerify, rsaSign, Bool.not_true,
      Bool.false_eq_true, if_false]
    split
    next hcond =>
      exfalso
      apply hx
      rw [beq_iff_eq] at hcond
      have hd := congrArg String.data hcond
      simp only [SignatureService._create_signing_payload, String.data_append,
        List.append_assoc] at hd
      repeat replace hd := List.append_cancel_left hd
      first
      | exact String.ext (List.append_cancel_right hd).symm
      | exact String.ext hd.symm
    next => rfl
  · intro x hx
    simp only [SignatureService.verify_signature, rsaVerify, rsaSign, Bool.not_true,
      Bool.false_eq_true, if_false]
    split
    next hcond =>
      exfalso
      apply hx
      rw [beq_iff_eq] at hcond
      have hd := congrArg String.data hcond
      simp only [SignatureService._create_signing_payload, String.data_append,
        List.append_assoc] at hd
      repeat replace hd := List.append_cancel_left hd
      first
      | exact String.ext (List.append_cancel_right hd).symm
      | exact String.ext hd.symm
    next => rfl
  · intro db rn rec hfind hnone
    simp [ReceiptService.verify_receipt_signature, hfind, hnone]

/-- C8 witness: the sample receipt data signed at instant 100 verifies
authentic unmodified, and verifies as tampered after the amount is
changed to 50001. -/
theorem signature_roundtrip_tamper_witness :
    SignatureService.verify_signature true sampleReceiptData sampleSig (isoZ 100)
        = (true, "Signature verified successfully - Receipt is authentic")
    ∧ SignatureService.verify_signature true
          { sampleReceiptData with amount := "50001" } sampleSig (isoZ 100)
        = (false, "INVALID SIGNATURE - Receipt may have been tampered with") :=
  ⟨(signature_roundtrip_tamper sampleReceiptData 100 (isoZ 100) sampleSig
      (sha256hex samplePayload) (isoZ 100) rfl).1,
   (signature_roundtrip_tamper sampleReceiptData 100 (isoZ 100) sampleSig
      (sha256hex samplePayload) (isoZ 100) rfl).2.2.2.1 "50001" (by decide)⟩

set_option maxRecDepth 8192 in
/-- C1: the canonical payload does not read the `signing_timestamp` key
that `sign_receipt` merges into the receipt data, so the signing
timestamp is not appended to the payload, and mutating it after signing
leaves verification reporting authentic. Evaluated at the sample data:
the payload built with timestamp 999Z equals the payload built with the
actual signing timestamp 100Z, and verifying the signature produced at
instant 100 against the mutated timestamp 999Z still reports
authentic. -/
theorem signing_timestamp_not_bound :
    SignatureService._create_signing_payload
        { sampleReceiptData with signing_timestamp := some (isoZ 999) }
      = SignatureService._create_signing_payload
        { sampleReceiptData with signing_timestamp := some (isoZ 100) }
    ∧ SignatureService.sign_receipt true sampleReceiptData 100
        = some (sampleSig, sha256hex samplePayload, isoZ 100)
    ∧ isoZ 999 ≠ isoZ 100
    ∧ SignatureService.verify_signature true sampleReceiptData sampleSig (isoZ 999)
        = (true, "Signature verified successfully - Receipt is authentic") :=
  ⟨rfl, rfl, by decide, rfl⟩

end DSlips
